import Mathlib

/-!
Verification of the GitHub-inbox-to-Discord bridge (bot.py and
notification_checker.py) against its natural-language specification.

Python strings are modelled as `List Char` (Python `len`/slicing act on code
points) wrapped in Lean `String` where convenient.  `str.replace` is the
left-to-right, non-overlapping replacement `listReplace`; the Python `in`
operator on strings is the substring relation `List.IsInfix` (written `<:+:`).
Network effects (GitHub fetches, Discord posts) are passed in as explicit
inputs or success oracles, so every run of the code becomes a pure function
of its inputs.
-/

/-- Python `s.replace(pat, rep)` for a non-empty pattern: scan left to right,
replace each non-overlapping occurrence of `pat` by `rep`.  (For `pat = []`
this is the identity; the source only replaces non-empty patterns.) -/
def listReplace (pat rep : List Char) : List Char → List Char
  | [] => []
  | c :: cs =>
    if h : pat ≠ [] ∧ pat <+: (c :: cs) then
      rep ++ listReplace pat rep (List.drop pat.length (c :: cs))
    else
      c :: listReplace pat rep cs
termination_by s => s.length
decreasing_by
  · have hlen : 0 < pat.length := List.length_pos.mpr h.1
    simp only [List.length_drop, List.length_cons]
    omega
  · simp

/-- Python `s.replace(pat, rep)` at the `String` level. -/
def pyReplace (s pat rep : String) : String := ⟨listReplace pat.data rep.data s.data⟩

/-- Python `pat in s` (substring test) at the `String` level. -/
def pyIn (pat s : String) : Bool := decide (pat.data <:+: s.data)

/-- Python `s.lower()` (sufficient for the ASCII strings the bot handles). -/
def pyLower (s : String) : String := ⟨s.data.map Char.toLower⟩

/-- Python `s.title()`: upper-case every cased character that follows an
uncased one, lower-case every other cased character. -/
def pyTitleAux : Bool → List Char → List Char
  | _, [] => []
  | prevCased, c :: cs =>
      (if c.isAlpha then (if prevCased then c.toLower else c.toUpper) else c)
        :: pyTitleAux c.isAlpha cs

def pyTitle (s : String) : String := ⟨pyTitleAux false s.data⟩

namespace NC

/-- notification_checker.py, format_notification_for_discord lines 347-354:
`web_url = api_url.replace('api.github.com/repos', 'github.com')`, then if
`'/pulls/' in web_url` also `web_url.replace('/pulls/', '/pull/')`; the
`/issues/` segment is deliberately left unchanged. -/
def api_to_web_url (api_url : String) : String :=
  let web_url := pyReplace api_url "api.github.com/repos" "github.com"
  if pyIn "/pulls/" web_url then pyReplace web_url "/pulls/" "/pull/" else web_url

end NC

namespace Bot

/-- bot.py, format_notification_embed lines 229-235: same host rewrite; then
`/pulls/` is rewritten to `/pull/`, and in the `elif` branch `/issues/` is
"replaced" by itself (a no-op). -/
def display_url (url : String) : String :=
  let d := pyReplace url "api.github.com/repos" "github.com"
  if pyIn "/pulls/" d then pyReplace d "/pulls/" "/pull/"
  else if pyIn "/issues/" d then pyReplace d "/issues/" "/issues/"
  else d

end Bot

namespace NC

/-- Class constants, notification_checker.py lines 22-29. -/
def TYPE_COLORS : List (String × Nat) :=
  [("Issue", 0xdb2777), ("PullRequest", 0x8b5cf6), ("Release", 0xf59e0b),
   ("Discussion", 0x3b82f6), ("Commit", 0x6b7280), ("SecurityAdvisory", 0xff6b35)]

/-- Class constants, lines 32-36. -/
def STATE_COLORS : List (String × Nat) :=
  [("open", 0x10b981), ("closed", 0xef4444), ("merged", 0x8b5cf6)]

/-- Line 291: the cancellation/skip phrases searched for in the title. -/
def workflow_title_phrases : List String :=
  ["workflow run cancelled", "workflow run skipped", "cancelled workflow",
   "skipped workflow"]

/-- The `subject` object of a notification (absent keys are `none`). -/
structure Subject where
  type : Option String
  title : Option String
  url : Option String
deriving DecidableEq

structure Owner where
  avatar_url : Option String
deriving DecidableEq

structure Repository where
  full_name : Option String
  html_url : Option String
  owner : Option Owner
deriving DecidableEq

/-- One raw notification as fetched from the notifications feed. -/
structure Notification where
  subject : Subject
  repository : Repository
  reason : Option String
  updated_at : Option String
deriving DecidableEq

/-- The JSON returned by the subject-details enrichment lookup
(`_get_subject_details`): the fields the formatter reads. -/
structure Details where
  state : Option String
  merged : Bool
  draft : Bool
  status : Option String
  conclusion : Option String
deriving DecidableEq

/-- The dict returned by `get_comment_content`. -/
structure CommentData where
  content : String
  author : String
  url : String
deriving DecidableEq

/-- One embed field. -/
structure Field where
  name : String
  value : String
  inline : Bool
deriving DecidableEq

/-- The Discord embed built by `format_notification_for_discord`. -/
structure Embed where
  title : String
  color : Nat
  timestamp : Option String
  thumbnail : Option String
  url : Option String
  fields : List Field
deriving DecidableEq

/-- Lines 304-333: the Status value and colour for a notification that is
not suppressed (`state` is the already lower-cased detail state). -/
def status_pair (subject_type state : String) (d : Details) (embed_color : Nat) :
    String × Nat :=
  if subject_type == "PullRequest" then
    let base :=
      if d.merged then ("Merged", (STATE_COLORS.lookup "merged").getD 0)
      else if state == "open" then ("Open", (STATE_COLORS.lookup "open").getD 0)
      else if state == "closed" then ("Closed", (STATE_COLORS.lookup "closed").getD 0)
      else (pyTitle state, embed_color)
    if d.draft && state == "open" then (base.1 ++ " (Draft)", base.2) else base
  else if subject_type == "Issue" then
    if state == "open" then ("Open", (STATE_COLORS.lookup "open").getD 0)
    else if state == "closed" then ("Closed", (STATE_COLORS.lookup "closed").getD 0)
    else (pyTitle state, embed_color)
  else
    (pyTitle state, embed_color)

/-- Lines 277-334 of notification_checker.py: compute the Status field value
and the embed colour, or `none` for the suppress sentinel (`return None`)
used for cancelled/skipped/failed workflow notifications.  Suppression can
only fire when the details lookup succeeded (`if details:`). -/
def status_and_color (subject_type title : String) (details : Option Details) :
    Option (String × Nat) :=
  let embed_color := (TYPE_COLORS.lookup subject_type).getD 0x586069
  match details with
  | none => some ("Unavailable", embed_color)
  | some d =>
    let state := pyLower (d.state.getD "unknown")
    let is_workflow : Bool := subject_type == "CheckSuite" || subject_type == "CheckRun"
    let title_lower := pyLower title
    if is_workflow && workflow_title_phrases.any (fun p => pyIn p title_lower) then
      none
    else if is_workflow && (d.status == some "completed" &&
        (d.conclusion == some "cancelled" || d.conclusion == some "skipped" ||
         d.conclusion == some "failure")) then
      none
    else
      some (status_pair subject_type state d embed_color)

/-- Lines 271-409 of notification_checker.py.  The two enrichment lookups
(`_get_subject_details` and `get_comment_content`) are network calls and so
enter as explicit inputs `details` and `comment_data` (`none` means the
lookup failed or found nothing - both helpers catch their exceptions and
return `None`); `epoch` stands for `datetime.fromisoformat(..).timestamp()`
on the Last Activity field. -/
def format_notification_for_discord (epoch : String → Int) (details : Option Details)
    (comment_data : Option CommentData) (notification : Notification) : Option Embed :=
  let subject := notification.subject
  let repo := notification.repository
  let subject_type := subject.type.getD "Unknown"
  match status_and_color subject_type (subject.title.getD "") details with
  | none => none
  | some sc =>
    some {
      title := subject.title.getD "No title"
      color := sc.2
      timestamp := notification.updated_at
      thumbnail :=
        match repo.owner with
        | some o => o.avatar_url
        | none => none
      url := subject.url.map api_to_web_url
      fields :=
        [⟨"Type", subject_type, true⟩,
         ⟨"Repository",
          "[" ++ repo.full_name.getD "Unknown" ++ "](" ++ repo.html_url.getD "#" ++ ")",
          true⟩,
         ⟨"Reason", notification.reason.getD "unknown", true⟩]
        ++ (match notification.updated_at with
            | some ts => [⟨"Last Activity", "<t:" ++ toString (epoch ts) ++ ":R>", true⟩]
            | none => [])
        ++ [⟨"Status", sc.1, true⟩]
        ++ (match comment_data with
            | some cd =>
              [⟨"💬 Latest Comment by @" ++ cd.author,
                "```\n" ++ cd.content ++ "\n```\n[View Comment](" ++ cd.url ++ ")",
                false⟩]
            | none => []) }

/-- The condition under which lines 282-302 return the suppress sentinel. -/
def suppressed_workflow (subject_type title : String) (d : Details) : Bool :=
  (subject_type == "CheckSuite" || subject_type == "CheckRun") &&
  (workflow_title_phrases.any (fun p => pyIn p (pyLower title)) ||
   (d.status == some "completed" &&
    (d.conclusion == some "cancelled" || d.conclusion == some "skipped" ||
     d.conclusion == some "failure")))

/-- Lines 209-213 of get_comment_content: truncate a long comment body for
Discord embed limits (`max_length = 1000`; Python `len`/slicing count code
points, i.e. entries of `data`). -/
def truncate_comment_body (content : String) : String :=
  if 1000 < content.data.length then
    (⟨content.data.take (1000 - 3)⟩ : String) ++ "..."
  else content

/-- The comment selected by the time-proximity matching of
get_comment_content (the matching scans network-fetched comment lists and is
modelled as an oracle input). -/
structure MatchedComment where
  body : String
  author : String
  url : String
deriving DecidableEq

/-- Lines 204-224 of get_comment_content, after the matching: an empty (Python
falsy) body yields `None`, otherwise the truncated excerpt is returned. -/
def get_comment_content_result (matched : Option MatchedComment) : Option CommentData :=
  match matched with
  | none => none
  | some m =>
    if m.body = "" then none
    else some ⟨truncate_comment_body m.body, m.author, m.url⟩

/-- The query parameters of the notifications fetch (get_notifications lines
245-258). -/
structure FetchParams where
  all : String
  participating : String
  since : Option String
deriving DecidableEq

/-- get_notifications lines 245-258: `datetime.fromisoformat` is the abstract
parser `parse_iso` (`none` = it raised ValueError); the checkpoint string
only becomes a `since` parameter when `last_check_time.replace('Z','+00:00')`
parses, otherwise the unfiltered (no-checkpoint) query is issued - the
exception is caught, so the run does not crash. -/
def get_notifications_params (parse_iso : String → Option Unit)
    (last_check_time : Option String) : FetchParams :=
  match last_check_time with
  | none => ⟨"false", "false", none⟩
  | some t =>
    match parse_iso (pyReplace t "Z" "+00:00") with
    | some _ => ⟨"false", "false", some t⟩
    | none => ⟨"false", "false", none⟩

/-- The batching loop of send_to_discord (line 426-427):
`for i in range(0, len(l), 10): batch = l[i:i+10]`, written as structural
recursion on a fuel counter (the loop performs at most `l.length`
iterations, each consuming at least one record). -/
def to_batches_fuel {α : Type} : Nat → List α → List (List α)
  | _, [] => []
  | 0, _ :: _ => []
  | fuel + 1, a :: l => (a :: l).take 10 :: to_batches_fuel fuel ((a :: l).drop 10)

def to_batches {α : Type} (l : List α) : List (List α) := to_batches_fuel l.length l

/-- Lines 443-462: one webhook POST per batch, with `post` the success oracle
for `requests.post`; the result is the overall outcome together with the
batches successfully delivered.  A failed POST returns `False` at once:
later batches are not attempted, earlier deliveries stay delivered. -/
def send_batches {α : Type} (post : List α → Bool) :
    List (List α) → Bool × List (List α)
  | [] => (true, [])
  | b :: bs =>
    if post b then
      let r := send_batches post bs
      (r.1, b :: r.2)
    else (false, [])

/-- send_to_discord (lines 411-462): an empty input returns success at once
(line 417-419); otherwise the records are sent batch by batch.  (Formatting
of the individual records inside a batch does not affect batching or order,
so the input is taken as the list of already-formatted display records.) -/
def send_to_discord {α : Type} (post : List α → Bool) (records : List α) :
    Bool × List (List α) :=
  if records.isEmpty then (true, [])
  else send_batches post (to_batches records)

end NC

namespace Bot

/-- bot.py lines 209-221: the fixed reason lookup table. -/
def reason_descriptions : List (String × String) :=
  [("assign", "You were assigned to this"),
   ("author", "You created this"),
   ("comment", "New comment on this"),
   ("invitation", "You were invited to collaborate"),
   ("manual", "You subscribed to this"),
   ("mention", "You were mentioned in this"),
   ("review_requested", "Your review was requested"),
   ("security_alert", "Security alert for this repository"),
   ("state_change", "Status changed on this"),
   ("subscribed", "You are watching this"),
   ("team_mention", "Your team was mentioned")]

/-- Python `reason.replace('_', ' ')`. -/
def underscores_to_spaces (s : String) : String := pyReplace s "_" " "

/-- bot.py line 223:
`reason_descriptions.get(reason, reason.replace('_', ' ').title())`. -/
def reason_text (reason : String) : String :=
  match reason_descriptions.lookup reason with
  | some t => t
  | none => pyTitle (underscores_to_spaces reason)

/-- One notification as seen by bot.py's fetch loop: `updated_at` is the
datetime (a totally ordered instant, modelled as `Nat`), `nid` the identity
of the record. -/
structure BotNotification where
  updated_at : Nat
  nid : Nat
deriving DecidableEq

/-- bot.py line 432:
`notifications_list.sort(key=lambda x: x.updated_at, reverse=True)`.
Python's sort is stable; it is modelled by the (equally stable) insertion
sort on the newest-first relation. -/
def sort_newest_first (ns : List BotNotification) : List BotNotification :=
  List.insertionSort (fun a b => b.updated_at ≤ a.updated_at) ns

/-- bot.py lines 434-440: with a checkpoint, keep exactly the items strictly
newer than it; with no checkpoint, keep the 10 most recent. -/
def new_notifications (last_check : Option Nat) (ns : List BotNotification) :
    List BotNotification :=
  match last_check with
  | some t => (sort_newest_first ns).filter (fun n => t < n.updated_at)
  | none => (sort_newest_first ns).take 10

/-- bot.py line 456: `for notification in reversed(new_notifications)` - the
order in which the embeds are posted to the channel (oldest first). -/
def delivery_order (last_check : Option Nat) (ns : List BotNotification) :
    List BotNotification :=
  (new_notifications last_check ns).reverse

/-- bot.py lines 396-474, fetch_and_send_notifications, as a function of the
run's inputs: the loaded checkpoint, the fetched notifications, the success
oracle `send_ok` for `channel.send` (a send failure is caught at line 468,
logged and skipped), the wall-clock time `now` of line 472 and the success
`save_ok` of the checkpoint file write (save_last_check catches write errors,
lines 184-190).  Returns (sent_count, checkpoint value after the run).  Line
472 saves the current time as the checkpoint unconditionally - whether or
not any send failed. -/
def fetch_and_send_notifications (last_check : Option Nat)
    (ns : List BotNotification) (send_ok : BotNotification → Bool) (now : Nat)
    (save_ok : Bool) : Nat × Option Nat :=
  let sent_count := ((delivery_order last_check ns).filter send_ok).length
  (sent_count, if save_ok then some now else last_check)

end Bot

instance : IsTotal Bot.BotNotification
    (fun a b => b.updated_at ≤ a.updated_at) :=
  ⟨fun a b => Nat.le_total b.updated_at a.updated_at⟩

instance : IsTrans Bot.BotNotification
    (fun a b => b.updated_at ≤ a.updated_at) :=
  ⟨fun _ _ _ hab hbc => Nat.le_trans hbc hab⟩

theorem listReplace_nil (pat rep : List Char) : listReplace pat rep [] = [] := by
  simp [listReplace]

theorem listReplace_cons_skip (pat rep : List Char) (c : Char) (cs : List Char)
    (h : ¬ pat <+: (c :: cs)) :
    listReplace pat rep (c :: cs) = c :: listReplace pat rep cs := by
  rw [listReplace]
  simp [h]

theorem listReplace_match (pat rep s : List Char) (hne : pat ≠ []) :
    listReplace pat rep (pat ++ s) = rep ++ listReplace pat rep s := by
  obtain ⟨p, pt, rfl⟩ : ∃ p pt, pat = p :: pt := by
    cases pat with
    | nil => exact absurd rfl hne
    | cons p pt => exact ⟨p, pt, rfl⟩
  rw [List.cons_append, listReplace]
  have hpre : (p :: pt) <+: (p :: (pt ++ s)) := ⟨s, by simp⟩
  simp only [hne, hpre, ne_eq, not_false_iff, and_self, reduceDIte]
  congr 1
  have : p :: (pt ++ s) = (p :: pt) ++ s := by simp
  rw [this, List.drop_left]

/-- If no occurrence of `pat` starts strictly inside `pre`, replacement walks
past `pre` untouched. -/
theorem listReplace_append_of_blocked (pat rep : List Char) :
    ∀ (pre rest : List Char),
      (∀ b, b <:+ pre → b ≠ [] → ¬ pat <+: (b ++ rest)) →
      listReplace pat rep (pre ++ rest) = pre ++ listReplace pat rep rest
  | [], rest, _ => by simp
  | c :: pre, rest, h => by
    have h1 : ¬ pat <+: (c :: (pre ++ rest)) := by
      have := h (c :: pre) ⟨[], rfl⟩ (by simp)
      simpa using this
    rw [List.cons_append, listReplace_cons_skip _ _ _ _ h1,
      listReplace_append_of_blocked pat rep pre rest
        (fun b hb hbne => h b (hb.trans ⟨[c], rfl⟩) hbne)]
    simp

theorem pref_append_split {α : Type} {pat : List α} :
    ∀ {b rest : List α}, pat <+: b ++ rest →
      pat <+: b ∨ (b <+: pat ∧ List.drop b.length pat <+: rest) := by
  intro b
  induction b generalizing pat with
  | nil =>
    intro rest h
    exact Or.inr ⟨⟨pat, rfl⟩, by simpa using h⟩
  | cons x b ih =>
    intro rest h
    cases pat with
    | nil => exact Or.inl ⟨x :: b, rfl⟩
    | cons y pt =>
      rw [List.cons_append, List.cons_prefix_cons] at h
      obtain ⟨rfl, h2⟩ := h
      rcases ih h2 with hp | ⟨hbp, hd⟩
      · exact Or.inl (List.cons_prefix_cons.mpr ⟨rfl, hp⟩)
      · exact Or.inr ⟨List.cons_prefix_cons.mpr ⟨rfl, hbp⟩, by simpa using hd⟩

theorem pref_blocked {α : Type} {pat b rest : List α}
    (h1 : ¬ pat <+: b) (h2 : ¬ b <+: pat) : ¬ pat <+: (b ++ rest) := by
  intro h
  rcases pref_append_split h with hp | ⟨hbp, _⟩
  · exact h1 hp
  · exact h2 hbp

theorem pref_isInfd {α : Type} {pat l : List α} (h : pat <+: l) : pat <:+: l := by
  obtain ⟨t, ht⟩ := h
  exact ⟨[], t, by simpa using ht⟩

theorem infd_cons {α : Type} {pat cs : List α} {c : α} (h : pat <:+: cs) :
    pat <:+: (c :: cs) := by
  obtain ⟨s, t, rfl⟩ := h
  exact ⟨c :: s, t, rfl⟩

/-- An occurrence of `pat` in `pre ++ n` either starts strictly inside `pre`
or lies wholly inside `n`. -/
theorem infd_append_split {α : Type} {pat pre n : List α} (h : pat <:+: pre ++ n) :
    (∃ b, b <:+ pre ∧ b ≠ [] ∧ pat <+: (b ++ n)) ∨ pat <:+: n := by
  obtain ⟨a, c, hac⟩ := h
  have hdrop : List.drop a.length (pre ++ n) = pat ++ c := by
    rw [← hac, List.append_assoc, List.drop_left]
  by_cases hk : a.length < pre.length
  · left
    refine ⟨List.drop a.length pre, List.drop_suffix _ _, ?_, ?_⟩
    · intro hnil
      have := congrArg List.length hnil
      simp only [List.length_drop, List.length_nil] at this
      omega
    · refine ⟨c, ?_⟩
      have hd2 : List.drop a.length (pre ++ n) = List.drop a.length pre ++ n := by
        rw [List.drop_append_eq_append_drop, Nat.sub_eq_zero_of_le (le_of_lt hk),
          List.drop_zero]
      rw [← hd2, hdrop]
  · right
    have hd2 : List.drop a.length (pre ++ n) = List.drop (a.length - pre.length) n := by
      rw [List.drop_append_eq_append_drop, List.drop_eq_nil_of_le (le_of_not_lt hk),
        List.nil_append]
    have hpd : pat <+: List.drop (a.length - pre.length) n := ⟨c, by rw [← hd2, hdrop]⟩
    obtain ⟨t, ht⟩ := hpd
    obtain ⟨s, hs⟩ : List.drop (a.length - pre.length) n <:+ n := List.drop_suffix _ _
    refine ⟨s, t, ?_⟩
    rw [List.append_assoc, ht, hs]

theorem not_infd_of_missing_char {pat s : List Char} {c : Char}
    (h1 : c ∈ pat) (h2 : c ∉ s) : ¬ pat <:+: s := fun h => h2 (h.subset h1)

/-- Master lemma: `pat` does not occur in `pre ++ n` provided (tails check) no
occurrence can start inside `pre`, and some character of `pat` is missing
from `n`. -/
theorem not_infd_of_blocked (pat pre n : List Char)
    (h1 : ∀ b ∈ pre.tails, b ≠ [] → ¬ pat <+: b)
    (h2 : ∀ b ∈ pre.tails, b ≠ [] → b <+: pat → b.length < pat.length →
          ∃ c, c ∈ List.drop b.length pat ∧ c ∉ n)
    (h3 : ∃ c, c ∈ pat ∧ c ∉ n) :
    ¬ pat <:+: (pre ++ n) := by
  intro h
  rcases infd_append_split h with ⟨b, hb, hne, hpb⟩ | hin
  · rcases pref_append_split hpb with hp | ⟨hbp, hdrop⟩
    · exact h1 b ((List.mem_tails _ _).mpr hb) hne hp
    · by_cases hlen : b.length < pat.length
      · obtain ⟨c, hc1, hc2⟩ := h2 b ((List.mem_tails _ _).mpr hb) hne hbp hlen
        exact hc2 (hdrop.subset hc1)
      · have hble : b.length ≤ pat.length := hbp.length_le
        have hbe : b = pat := hbp.eq_of_length (le_antisymm hble (le_of_not_lt hlen))
        exact h1 b ((List.mem_tails _ _).mpr hb) hne (hbe ▸ ⟨[], List.append_nil _⟩)
  · obtain ⟨c, hc1, hc2⟩ := h3
    exact hc2 (hin.subset hc1)

theorem listReplace_of_not_infd (pat rep : List Char) :
    ∀ (s : List Char), ¬ pat <:+: s → listReplace pat rep s = s
  | [], _ => listReplace_nil pat rep
  | c :: cs, h => by
    have hp : ¬ pat <+: (c :: cs) := fun hp => h (pref_isInfd hp)
    rw [listReplace_cons_skip _ _ _ _ hp,
      listReplace_of_not_infd pat rep cs (fun hin => h (infd_cons hin))]

/-- One-occurrence replacement: if no occurrence of `pat` starts inside `pre`
and `pat` does not occur in `suf`, replacing in `pre ++ pat ++ suf` rewrites
exactly the middle occurrence. -/
theorem replace_at (pat rep pre suf : List Char) (hne : pat ≠ [])
    (hpre : ∀ b ∈ pre.tails, b ≠ [] → ¬ pat <+: b ∧ ¬ b <+: pat)
    (hsuf : ¬ pat <:+: suf) :
    listReplace pat rep (pre ++ pat ++ suf) = pre ++ rep ++ suf := by
  rw [List.append_assoc, List.append_assoc,
    listReplace_append_of_blocked pat rep pre (pat ++ suf)
      (fun b hb hbne =>
        pref_blocked (hpre b ((List.mem_tails _ _).mpr hb) hbne).1
          (hpre b ((List.mem_tails _ _).mpr hb) hbne).2),
    listReplace_match pat rep suf hne, listReplace_of_not_infd pat rep suf hsuf]

theorem data_pyReplace (s pat rep : String) :
    (pyReplace s pat rep).data = listReplace pat.data rep.data s.data := rfl

theorem pyIn_eq_true {pat s : String} (h : pat.data <:+: s.data) : pyIn pat s = true :=
  decide_eq_true h

theorem pyIn_eq_false {pat s : String} (h : ¬ pat.data <:+: s.data) : pyIn pat s = false :=
  decide_eq_false h

/-- First rewrite on a pull-request API URL: the `api.github.com/repos`
host-and-prefix becomes `github.com`. -/
theorem rewrite_host_pulls (nl : List Char) (hdot : '.' ∉ nl) :
    listReplace "api.github.com/repos".data "github.com".data
        ("https://api.github.com/repos/o/r/pulls/".data ++ nl)
      = "https://github.com/o/r/pulls/".data ++ nl := by
  have hsplit : ("https://".data ++ "api.github.com/repos".data) ++ "/o/r/pulls/".data
      = "https://api.github.com/repos/o/r/pulls/".data := by decide
  have haux : ∀ b ∈ ("/o/r/pulls/".data).tails, b ≠ [] →
      ¬ b <+: "api.github.com/repos".data := by decide
  have hsuf : ¬ "api.github.com/repos".data <:+: ("/o/r/pulls/".data ++ nl) :=
    not_infd_of_blocked _ _ _ (by decide)
      (fun b hb hbne hbp _ => absurd hbp (haux b hb hbne)) ⟨'.', by decide, hdot⟩
  have h := replace_at "api.github.com/repos".data "github.com".data
      "https://".data ("/o/r/pulls/".data ++ nl) (by decide) (by decide) hsuf
  rw [← hsplit, List.append_assoc ("https://".data ++ "api.github.com/repos".data),
    h, ← List.append_assoc,
    show ("https://".data ++ "github.com".data ++ "/o/r/pulls/".data : List Char)
      = "https://github.com/o/r/pulls/".data from by decide]

/-- Same first rewrite on an issue API URL. -/
theorem rewrite_host_issues (nl : List Char) (hdot : '.' ∉ nl) :
    listReplace "api.github.com/repos".data "github.com".data
        ("https://api.github.com/repos/o/r/issues/".data ++ nl)
      = "https://github.com/o/r/issues/".data ++ nl := by
  have hsplit : ("https://".data ++ "api.github.com/repos".data) ++ "/o/r/issues/".data
      = "https://api.github.com/repos/o/r/issues/".data := by decide
  have haux : ∀ b ∈ ("/o/r/issues/".data).tails, b ≠ [] →
      ¬ b <+: "api.github.com/repos".data := by decide
  have hsuf : ¬ "api.github.com/repos".data <:+: ("/o/r/issues/".data ++ nl) :=
    not_infd_of_blocked _ _ _ (by decide)
      (fun b hb hbne hbp _ => absurd hbp (haux b hb hbne)) ⟨'.', by decide, hdot⟩
  have h := replace_at "api.github.com/repos".data "github.com".data
      "https://".data ("/o/r/issues/".data ++ nl) (by decide) (by decide) hsuf
  rw [← hsplit, List.append_assoc ("https://".data ++ "api.github.com/repos".data),
    h, ← List.append_assoc,
    show ("https://".data ++ "github.com".data ++ "/o/r/issues/".data : List Char)
      = "https://github.com/o/r/issues/".data from by decide]

/-- Second rewrite on a pull-request web URL: `/pulls/` becomes `/pull/`. -/
theorem rewrite_pulls_seg (nl : List Char) (hsl : '/' ∉ nl) :
    listReplace "/pulls/".data "/pull/".data
        ("https://github.com/o/r/pulls/".data ++ nl)
      = "https://github.com/o/r/pull/".data ++ nl := by
  have hsplit : "https://github.com/o/r".data ++ "/pulls/".data
      = "https://github.com/o/r/pulls/".data := by decide
  have hsuf : ¬ "/pulls/".data <:+: nl := not_infd_of_missing_char (by decide) hsl
  have h := replace_at "/pulls/".data "/pull/".data
      "https://github.com/o/r".data nl (by decide) (by decide) hsuf
  rw [← hsplit, h,
    show ("https://github.com/o/r".data ++ "/pull/".data : List Char)
      = "https://github.com/o/r/pull/".data from by decide]

theorem contains_pulls (nl : List Char) :
    "/pulls/".data <:+: ("https://github.com/o/r/pulls/".data ++ nl) := by
  refine ⟨"https://github.com/o/r".data, nl, ?_⟩
  rw [show "https://github.com/o/r".data ++ "/pulls/".data
    = "https://github.com/o/r/pulls/".data from by decide]

theorem not_contains_pulls_in_issues (nl : List Char) (hsl : '/' ∉ nl) :
    ¬ "/pulls/".data <:+: ("https://github.com/o/r/issues/".data ++ nl) := by
  have haux : ∀ b ∈ ("https://github.com/o/r/issues/".data).tails, b ≠ [] →
      b <+: "/pulls/".data → b.length < ("/pulls/".data).length → b = ['/'] := by decide
  refine not_infd_of_blocked _ _ _ (by decide) ?_ ⟨'/', by decide, hsl⟩
  intro b hb hbne hbp hlen
  rw [haux b hb hbne hbp hlen]
  exact ⟨'/', by decide, hsl⟩

theorem contains_issues (nl : List Char) :
    "/issues/".data <:+: ("https://github.com/o/r/issues/".data ++ nl) := by
  refine ⟨"https://github.com/o/r".data, nl, ?_⟩
  rw [show "https://github.com/o/r".data ++ "/issues/".data
    = "https://github.com/o/r/issues/".data from by decide]

/-- Replacing `/issues/` by itself leaves the issue web URL unchanged. -/
theorem rewrite_issues_self (nl : List Char) (hsl : '/' ∉ nl) :
    listReplace "/issues/".data "/issues/".data
        ("https://github.com/o/r/issues/".data ++ nl)
      = "https://github.com/o/r/issues/".data ++ nl := by
  have hsplit : "https://github.com/o/r".data ++ "/issues/".data
      = "https://github.com/o/r/issues/".data := by decide
  have hsuf : ¬ "/issues/".data <:+: nl := not_infd_of_missing_char (by decide) hsl
  have h := replace_at "/issues/".data "/issues/".data
      "https://github.com/o/r".data nl (by decide) (by decide) hsuf
  rw [← hsplit, h]

theorem nc_host_step_pulls (n : String) (hdot : '.' ∉ n.data) :
    pyReplace ("https://api.github.com/repos/o/r/pulls/" ++ n)
        "api.github.com/repos" "github.com"
      = "https://github.com/o/r/pulls/" ++ n := by
  apply String.ext
  rw [data_pyReplace, String.data_append, String.data_append]
  exact rewrite_host_pulls n.data hdot

theorem nc_host_step_issues (n : String) (hdot : '.' ∉ n.data) :
    pyReplace ("https://api.github.com/repos/o/r/issues/" ++ n)
        "api.github.com/repos" "github.com"
      = "https://github.com/o/r/issues/" ++ n := by
  apply String.ext
  rw [data_pyReplace, String.data_append, String.data_append]
  exact rewrite_host_issues n.data hdot

theorem nc_seg_step_pulls (n : String) (hsl : '/' ∉ n.data) :
    pyReplace ("https://github.com/o/r/pulls/" ++ n) "/pulls/" "/pull/"
      = "https://github.com/o/r/pull/" ++ n := by
  apply String.ext
  rw [data_pyReplace, String.data_append, String.data_append]
  exact rewrite_pulls_seg n.data hsl

theorem nc_seg_step_issues_self (n : String) (hsl : '/' ∉ n.data) :
    pyReplace ("https://github.com/o/r/issues/" ++ n) "/issues/" "/issues/"
      = "https://github.com/o/r/issues/" ++ n := by
  apply String.ext
  rw [data_pyReplace, String.data_append]
  exact rewrite_issues_self n.data hsl

theorem pyIn_pulls_true (n : String) :
    pyIn "/pulls/" ("https://github.com/o/r/pulls/" ++ n) = true := by
  apply pyIn_eq_true
  rw [String.data_append]
  exact contains_pulls n.data

theorem pyIn_pulls_false (n : String) (hsl : '/' ∉ n.data) :
    pyIn "/pulls/" ("https://github.com/o/r/issues/" ++ n) = false := by
  apply pyIn_eq_false
  rw [String.data_append]
  exact not_contains_pulls_in_issues n.data hsl

theorem pyIn_issues_true (n : String) :
    pyIn "/issues/" ("https://github.com/o/r/issues/" ++ n) = true := by
  apply pyIn_eq_true
  rw [String.data_append]
  exact contains_issues n.data

/-- Claim C5: API-to-web URL rewriting is a pure function: the
`api.github.com/repos` host-and-prefix is replaced by `github.com`, the
`/pulls/` path segment is rewritten to `/pull/`, and the `/issues/` segment
is left unchanged, in both the notification_checker.py and the bot.py
variants.  `n` is the issue/PR number (any string of characters not
containing `'/'` or `'.'`, in particular any string of digits). -/
theorem url_rewrite_pure (n : String) (hdot : '.' ∉ n.data) (hsl : '/' ∉ n.data) :
    NC.api_to_web_url ("https://api.github.com/repos/o/r/pulls/" ++ n)
        = "https://github.com/o/r/pull/" ++ n
    ∧ NC.api_to_web_url ("https://api.github.com/repos/o/r/issues/" ++ n)
        = "https://github.com/o/r/issues/" ++ n
    ∧ Bot.display_url ("https://api.github.com/repos/o/r/pulls/" ++ n)
        = "https://github.com/o/r/pull/" ++ n
    ∧ Bot.display_url ("https://api.github.com/repos/o/r/issues/" ++ n)
        = "https://github.com/o/r/issues/" ++ n := by
  refine ⟨?_, ?_, ?_, ?_⟩
  · simp only [NC.api_to_web_url, nc_host_step_pulls n hdot, pyIn_pulls_true n,
      if_true]
    exact nc_seg_step_pulls n hsl
  · simp only [NC.api_to_web_url, nc_host_step_issues n hdot, pyIn_pulls_false n hsl,
      Bool.false_eq_true, if_false]
  · simp only [Bot.display_url, nc_host_step_pulls n hdot, pyIn_pulls_true n, if_true]
    exact nc_seg_step_pulls n hsl
  · simp only [Bot.display_url, nc_host_step_issues n hdot, pyIn_pulls_false n hsl,
      Bool.false_eq_true, if_false, pyIn_issues_true n, if_true]
    exact nc_seg_step_issues_self n hsl

/-- Witness for `url_rewrite_pure` at the concrete number string `"7"` of the
spec's example. -/
theorem url_rewrite_pure_witness :
    NC.api_to_web_url "https://api.github.com/repos/o/r/pulls/7"
        = "https://github.com/o/r/pull/7"
    ∧ NC.api_to_web_url "https://api.github.com/repos/o/r/issues/7"
        = "https://github.com/o/r/issues/7"
    ∧ Bot.display_url "https://api.github.com/repos/o/r/pulls/7"
        = "https://github.com/o/r/pull/7"
    ∧ Bot.display_url "https://api.github.com/repos/o/r/issues/7"
        = "https://github.com/o/r/issues/7" := by
  have h := url_rewrite_pure "7" (by decide) (by decide)
  obtain ⟨h1, h2, h3, h4⟩ := h
  refine ⟨?_, ?_, ?_, ?_⟩
  · rw [show "https://api.github.com/repos/o/r/pulls/7"
        = "https://api.github.com/repos/o/r/pulls/" ++ "7" from by decide, h1]
    decide
  · rw [show "https://api.github.com/repos/o/r/issues/7"
        = "https://api.github.com/repos/o/r/issues/" ++ "7" from by decide, h2]
    decide
  · rw [show "https://api.github.com/repos/o/r/pulls/7"
        = "https://api.github.com/repos/o/r/pulls/" ++ "7" from by decide, h3]
    decide
  · rw [show "https://api.github.com/repos/o/r/issues/7"
        = "https://api.github.com/repos/o/r/issues/" ++ "7" from by decide, h4]
    decide

theorem status_and_color_eq_none (subject_type title : String)
    (details : Option NC.Details) :
    NC.status_and_color subject_type title details = none ↔
      ∃ d, details = some d
        ∧ NC.suppressed_workflow subject_type title d = true := by
  cases details with
  | none => simp [NC.status_and_color]
  | some d =>
    simp only [NC.status_and_color, Option.some.injEq]
    constructor
    · intro h
      refine ⟨d, rfl, ?_⟩
      rw [NC.suppressed_workflow, Bool.and_or_distrib_left]
      by_cases h1 : ((subject_type == "CheckSuite" || subject_type == "CheckRun") &&
          NC.workflow_title_phrases.any (fun p => pyIn p (pyLower title))) = true
      · rw [h1, Bool.true_or]
      · rw [if_neg h1] at h
        by_cases h2 : ((subject_type == "CheckSuite" || subject_type == "CheckRun") &&
            (d.status == some "completed" &&
             (d.conclusion == some "cancelled" || d.conclusion == some "skipped" ||
              d.conclusion == some "failure"))) = true
        · rw [h2, Bool.or_true]
        · rw [if_neg h2] at h
          exact absurd h (by simp)
    · rintro ⟨d2, hd2, hsup⟩
      obtain rfl : d = d2 := hd2
      rw [NC.suppressed_workflow, Bool.and_or_distrib_left] at hsup
      rcases (Bool.or_eq_true _ _).mp hsup with h1 | h2
      · rw [if_pos h1]
      · by_cases h1 : ((subject_type == "CheckSuite" || subject_type == "CheckRun") &&
            NC.workflow_title_phrases.any (fun p => pyIn p (pyLower title))) = true
        · rw [if_pos h1]
        · rw [if_neg h1, if_pos h2]

/-- Claim C6 (amended): the formatter returns the suppress sentinel exactly
for workflow notifications (subject type CheckSuite or CheckRun) whose
detail lookup succeeded and which either carry a cancel/skip phrase in the
title or are completed with conclusion cancelled, skipped or failure; every
other notification (including workflows whose detail lookup failed) yields
a display record. -/
theorem workflow_suppression_characterized (epoch : String → Int)
    (details : Option NC.Details) (comment_data : Option NC.CommentData)
    (n : NC.Notification) :
    NC.format_notification_for_discord epoch details comment_data n = none ↔
      ∃ d, details = some d
        ∧ NC.suppressed_workflow (n.subject.type.getD "Unknown")
            (n.subject.title.getD "") d = true := by
  rw [← status_and_color_eq_none]
  unfold NC.format_notification_for_discord
  cases h : NC.status_and_color (n.subject.type.getD "Unknown")
      (n.subject.title.getD "") details <;> simp [h]

/-- Claim C6 counterexample: a CheckSuite notification whose run completed
with conclusion "failure" is neither cancelled nor skipped and its title
matches no cancel/skip phrase, yet the formatter suppresses it
(returns the sentinel rather than a display record). -/
theorem workflow_failure_also_suppressed :
    NC.format_notification_for_discord (fun _ => 0)
        (some ⟨none, false, false, some "completed", some "failure"⟩) none
        ⟨⟨some "CheckSuite", some "CI run failed on main", none⟩,
         ⟨none, none, none⟩, some "ci_activity", none⟩
      = none
    ∧ (some "failure" : Option String) ≠ some "cancelled"
    ∧ (some "failure" : Option String) ≠ some "skipped"
    ∧ NC.workflow_title_phrases.all
        (fun p => !(pyIn p (pyLower "CI run failed on main"))) = true := by
  refine ⟨?_, by decide, by decide, by decide⟩
  decide

/-- Claim C9: when every enrichment lookup fails (detail lookup and comment
lookup both come back empty), the formatter still returns a display record,
degraded to the non-enriched form: default type colour, Status field
"Unavailable", and no comment-excerpt field (the comment field is the only
non-inline field the formatter can emit). -/
theorem enrichment_failure_degrades (epoch : String → Int) (n : NC.Notification) :
    ∃ e, NC.format_notification_for_discord epoch none none n = some e
      ∧ e.color = (NC.TYPE_COLORS.lookup (n.subject.type.getD "Unknown")).getD 0x586069
      ∧ NC.Field.mk "Status" "Unavailable" true ∈ e.fields
      ∧ e.fields.all (fun f => f.inline) = true := by
  refine ⟨_, rfl, rfl, ?_, ?_⟩
  · show NC.Field.mk "Status" "Unavailable" true ∈ _ ++ _ ++ _ ++ _
    cases n.updated_at <;> simp
  · show (_ ++ _ ++ _ ++ _ : List NC.Field).all _ = true
    cases n.updated_at <;> simp

/-- Claim C10: the comment excerpt placed in a display record is at most 1000
characters: a body longer than 1000 characters is cut to its first 997
characters plus "...", a shorter body is kept as is. -/
theorem comment_excerpt_truncated (m : NC.MatchedComment) (hne : m.body ≠ "") :
    ∃ cd, NC.get_comment_content_result (some m) = some cd
      ∧ cd.content.data.length ≤ 1000
      ∧ (1000 < m.body.data.length →
          cd.content = (⟨m.body.data.take 997⟩ : String) ++ "...")
      ∧ (m.body.data.length ≤ 1000 → cd.content = m.body) := by
  refine ⟨⟨NC.truncate_comment_body m.body, m.author, m.url⟩, ?_, ?_, ?_, ?_⟩
  · rw [NC.get_comment_content_result, if_neg hne]
  · show (NC.truncate_comment_body m.body).data.length ≤ 1000
    rw [NC.truncate_comment_body]
    by_cases h : 1000 < m.body.data.length
    · rw [if_pos h, String.data_append]
      simp only [List.length_append, List.length_take]
      have h3 : ("...").data.length = 3 := by decide
      rw [h3]
      omega
    · rw [if_neg h]
      omega
  · intro h
    show NC.truncate_comment_body m.body = _
    rw [NC.truncate_comment_body, if_pos h]
  · intro h
    show NC.truncate_comment_body m.body = m.body
    rw [NC.truncate_comment_body, if_neg (by omega)]

/-- Witness for `comment_excerpt_truncated` on a 1001-character body: the
excerpt is exactly the first 997 characters followed by "...". -/
theorem comment_excerpt_truncated_witness :
    (⟨List.replicate 1001 'a'⟩ : String) ≠ ""
    ∧ ∃ cd, NC.get_comment_content_result
          (some ⟨⟨List.replicate 1001 'a'⟩, "alice", "u"⟩) = some cd
        ∧ cd.content.data.length ≤ 1000
        ∧ (1000 < ((⟨List.replicate 1001 'a'⟩ : String)).data.length →
            cd.content
              = (⟨((⟨List.replicate 1001 'a'⟩ : String)).data.take 997⟩ : String) ++ "...")
        ∧ (((⟨List.replicate 1001 'a'⟩ : String)).data.length ≤ 1000 →
            cd.content = (⟨List.replicate 1001 'a'⟩ : String)) := by
  constructor
  · decide
  · exact comment_excerpt_truncated ⟨⟨List.replicate 1001 'a'⟩, "alice", "u"⟩
      (by decide)

/-- Claim C8: a checkpoint value that does not parse as a valid ISO-8601
timestamp makes the fetch take the no-checkpoint path: the query carries no
`since` filter and is identical to the query issued with no checkpoint at
all (and the parse failure is caught, not propagated). -/
theorem invalid_checkpoint_no_since (parse_iso : String → Option Unit) (t : String)
    (h : parse_iso (pyReplace t "Z" "+00:00") = none) :
    NC.get_notifications_params parse_iso (some t)
        = NC.get_notifications_params parse_iso none
    ∧ (NC.get_notifications_params parse_iso (some t)).since = none := by
  constructor <;> simp [NC.get_notifications_params, h]

/-- Witness for `invalid_checkpoint_no_since` with a parser that rejects the
concrete garbage checkpoint `"not-a-timestamp"`. -/
theorem invalid_checkpoint_no_since_witness :
    NC.get_notifications_params (fun _ => none) (some "not-a-timestamp")
        = NC.get_notifications_params (fun _ => none) none
    ∧ (NC.get_notifications_params (fun _ => none) (some "not-a-timestamp")).since
        = none :=
  invalid_checkpoint_no_since (fun _ => none) "not-a-timestamp" rfl

theorem to_batches_fuel_eq {α : Type} :
    ∀ (f1 f2 : Nat) (l : List α), l.length ≤ f1 → l.length ≤ f2 →
      NC.to_batches_fuel f1 l = NC.to_batches_fuel f2 l := by
  intro f1
  induction f1 with
  | zero =>
    intro f2 l h1 _
    have : l = [] := List.eq_nil_of_length_eq_zero (Nat.le_zero.mp h1)
    subst this
    cases f2 <;> rfl
  | succ f1 ih =>
    intro f2 l h1 h2
    cases l with
    | nil => cases f2 <;> rfl
    | cons a l =>
      cases f2 with
      | zero => simp at h2
      | succ f2 =>
        show _ :: NC.to_batches_fuel f1 _ = _ :: NC.to_batches_fuel f2 _
        congr 1
        apply ih
        · simp only [List.length_drop, List.length_cons] at *
          omega
        · simp only [List.length_drop, List.length_cons] at *
          omega

theorem to_batches_cons {α : Type} (a : α) (l : List α) :
    NC.to_batches (a :: l)
      = (a :: l).take 10 :: NC.to_batches ((a :: l).drop 10) := by
  show NC.to_batches_fuel (l.length + 1) (a :: l) = _
  show _ :: NC.to_batches_fuel l.length ((a :: l).drop 10) = _
  congr 1
  apply to_batches_fuel_eq
  · simp only [List.length_drop, List.length_cons]
    omega
  · exact Nat.le_refl _

theorem to_batches_flatten {α : Type} : ∀ (l : List α),
    (NC.to_batches l).flatten = l
  | [] => rfl
  | a :: l => by
    rw [to_batches_cons, List.flatten_cons,
      to_batches_flatten ((a :: l).drop 10), List.take_append_drop]
termination_by l => l.length
decreasing_by
  simp only [List.length_drop, List.length_cons]
  omega

theorem to_batches_le10 {α : Type} : ∀ (l : List α),
    (NC.to_batches l).all (fun b => b.length ≤ 10) = true
  | [] => rfl
  | a :: l => by
    rw [to_batches_cons, List.all_cons, to_batches_le10 ((a :: l).drop 10)]
    simp only [Bool.and_true, decide_eq_true_eq, List.length_take]
    omega
termination_by l => l.length
decreasing_by
  simp only [List.length_drop, List.length_cons]
  omega

/-- Claim C3: the publisher splits its input into consecutive batches of at
most 10 records in original (oldest-first) order - the concatenation of the
batches is the input itself - and a list of 23 records yields exactly 3
webhook posts of sizes 10, 10 and 3 (shown with an always-succeeding POST
oracle, where every batch is delivered). -/
theorem batching_splits_input {α : Type} (l : List α) :
    (NC.to_batches l).flatten = l
    ∧ (NC.to_batches l).all (fun b => b.length ≤ 10) = true
    ∧ (NC.to_batches (List.range 23)).map List.length = [10, 10, 3]
    ∧ NC.send_to_discord (fun _ => true) (List.range 23)
        = (true, NC.to_batches (List.range 23)) :=
  ⟨to_batches_flatten l, to_batches_le10 l, by decide, by decide⟩

/-- Claim C4: when one batch POST fails, every earlier batch stays delivered,
the failing batch and all later batches are not delivered, and the publisher
reports overall failure. -/
theorem batch_failure_aborts {α : Type} (post : List α → Bool)
    (pre : List (List α)) (b : List α) (rest : List (List α))
    (hpre : ∀ x ∈ pre, post x = true) (hb : post b = false) :
    NC.send_batches post (pre ++ b :: rest) = (false, pre) := by
  induction pre with
  | nil => simp [NC.send_batches, hb]
  | cons x pre ih =>
    have hx : post x = true := hpre x (List.mem_cons_self _ _)
    have hr := ih (fun y hy => hpre y (List.mem_cons_of_mem _ hy))
    simp [NC.send_batches, hx, hr]

/-- Witness for `batch_failure_aborts`: 23 records batch into 3 posts; the
POST oracle fails on the second batch (the one containing record 10), so only
the first batch is delivered, the third is never attempted, and the overall
result is failure. -/
theorem batch_failure_aborts_witness :
    NC.send_batches (fun bb => decide (10 ∉ bb)) (NC.to_batches (List.range 23))
      = (false, [[0, 1, 2, 3, 4, 5, 6, 7, 8, 9]]) := by
  rw [show NC.to_batches (List.range 23)
      = [[0, 1, 2, 3, 4, 5, 6, 7, 8, 9]]
        ++ [10, 11, 12, 13, 14, 15, 16, 17, 18, 19]
          :: [[20, 21, 22]] from by decide]
  exact batch_failure_aborts _ _ _ _ (by decide) (by decide)

/-- Replacing one single character by another is a character map. -/
theorem listReplace_single (p r : Char) : ∀ (s : List Char),
    listReplace [p] [r] s = s.map (fun c => if c = p then r else c)
  | [] => by rw [listReplace_nil, List.map_nil]
  | c :: cs => by
    by_cases h : c = p
    · rw [show (c :: cs) = [p] ++ cs from by rw [h]; rfl,
        listReplace_match [p] [r] cs (by simp), listReplace_single p r cs]
      simp [h]
    · have hp : ¬ [p] <+: (c :: cs) := by
        intro hpc
        rw [List.cons_prefix_cons] at hpc
        exact h hpc.1.symm
      rw [listReplace_cons_skip _ _ _ _ hp, listReplace_single p r cs]
      simp [h]

/-- Claim C7: the delivery-reason mapping sends `review_requested` to the
fixed phrase "Your review was requested", and sends every reason code not in
the lookup table to the title-cased rendering of itself with underscores
replaced by spaces. -/
theorem reason_mapping (r : String)
    (h : Bot.reason_descriptions.lookup r = none) :
    Bot.reason_text "review_requested" = "Your review was requested"
    ∧ Bot.reason_text r = pyTitle (Bot.underscores_to_spaces r) := by
  constructor
  · rfl
  · rw [Bot.reason_text, h]

/-- Witness for `reason_mapping` at the unknown reason code `"ci_activity"`,
which title-cases to "Ci Activity". -/
theorem reason_mapping_witness :
    Bot.reason_descriptions.lookup "ci_activity" = none
    ∧ Bot.reason_text "review_requested" = "Your review was requested"
    ∧ Bot.reason_text "ci_activity" = "Ci Activity" := by
  have h := reason_mapping "ci_activity" (by decide)
  refine ⟨by decide, h.1, ?_⟩
  rw [h.2]
  have hu : Bot.underscores_to_spaces "ci_activity" = "ci activity" := by
    apply String.ext
    show listReplace "_".data " ".data "ci_activity".data = "ci activity".data
    rw [show ("_".data : List Char) = ['_'] from rfl,
      show (" ".data : List Char) = [' '] from rfl, listReplace_single]
    decide
  rw [hu]
  decide

/-- Claim C2: for every mixed notification list and checkpoint `t`, bot.py's
fetch/filter step keeps exactly the notifications with `updated_at > t`
(the delivered list is a permutation of that filter of the input), and they
are handed to the channel-send loop sorted oldest-first. -/
theorem fetch_filter_exact (t : Nat) (ns : List Bot.BotNotification) :
    (Bot.delivery_order (some t) ns).Perm
        (ns.filter (fun n => t < n.updated_at))
    ∧ List.Sorted (fun a b : Bot.BotNotification => a.updated_at ≤ b.updated_at)
        (Bot.delivery_order (some t) ns) := by
  constructor
  · show ((Bot.sort_newest_first ns).filter _).reverse.Perm _
    exact (List.reverse_perm _).trans
      ((List.perm_insertionSort _ ns).filter _)
  · show List.Sorted _ ((Bot.sort_newest_first ns).filter _).reverse
    apply List.pairwise_reverse.mpr
    exact (List.sorted_insertionSort
      (fun a b : Bot.BotNotification => b.updated_at ≤ a.updated_at) ns).filter _

/-- Claim C1 evidence (code bug): a run with checkpoint 100 and one fetched
notification (updated at 150) in which the only Discord send FAILS still
overwrites the checkpoint with the current time 200 (bot.py line 472 saves
unconditionally after the send loop); the previous checkpoint 100 is lost. -/
theorem failed_publish_still_overwrites_checkpoint :
    Bot.fetch_and_send_notifications (some 100)
        [⟨150, 0⟩] (fun _ => false) 200 true = (0, some 200)
    ∧ (Bot.fetch_and_send_notifications (some 100)
        [⟨150, 0⟩] (fun _ => false) 200 true).2 ≠ some 100 := by
  decide
